import Mathlib

/-!
Shallow embedding of the finance-ai service-worker corpus.

The repository holds five near-duplicate service workers:
three concatenated variants inside `static/sw.js` (SW1 = "financeai-v3",
SW2 = "fa-v1.0.0", SW3 = "financeai-v2") and three standalone files
(P0 = part_000 "v2.0.1", P1 = part_001 "v1.0.0", P2 = part_002
"finance-ai-v1.0.0"; part_003 is a README).

Modelling conventions:
  * a `Response` is (status, body); the platform `response.ok` test is
    `200 ≤ status < 300`;
  * an origin fetch outcome is `Option Response`, `none` standing for a
    rejected fetch (network error);
  * a cache (`Store`) is an association list keyed by URL path; `Store.put`
    conses (the Cache API overwrites the matching entry and `match` returns
    the freshest one, so shadowing is observationally equivalent);
  * a handler outcome is `StratResult`: a response, a null/undefined
    resolution, or a rejected promise propagated to the caller;
  * where a strategy fires a background refresh, the returned store already
    contains the background write (the eventual store state);
  * JS string primitives (`startsWith`, `endsWith`, `includes`) are embedded
    as structural functions over the character list.
-/

structure Response where
  status : Nat
  body : String
deriving DecidableEq

def Response.ok (r : Response) : Bool :=
  decide (200 ≤ r.status ∧ r.status < 300)

structure Url where
  origin : String
  pathname : String
deriving DecidableEq

structure Request where
  method : String
  url : Url
  mode : String
  accept : Option String
deriving DecidableEq

inductive StratResult where
  | resp (r : Response)
  | nullResp
  | thrown
deriving DecidableEq

abbrev Store := List (String × Response)

def Store.find : Store → String → Option Response
  | [], _ => none
  | (k1, v) :: rest, k => if k1 = k then some v else Store.find rest k

def Store.put (st : Store) (k : String) (v : Response) : Store :=
  (k, v) :: st

def listStartsWith : List Char → List Char → Bool
  | _, [] => true
  | [], _ :: _ => false
  | c :: cs, p :: ps => decide (c = p) && listStartsWith cs ps

def strStartsWith (s p : String) : Bool :=
  listStartsWith s.data p.data

def strEndsWith (s p : String) : Bool :=
  listStartsWith s.data.reverse p.data.reverse

def listHasSub (sub : List Char) : List Char → Bool
  | [] => sub.isEmpty
  | c :: rest => listStartsWith (c :: rest) sub || listHasSub sub rest

def strIncludes (s sub : String) : Bool :=
  listHasSub sub.data s.data

def acceptIncludesHtml : Option String → Bool
  | some a => strIncludes a ("text/html")
  | none => false

/-- Platform `Cache.addAll`: atomic — if any member's fetch rejects or its
response is not ok, the whole operation rejects (`none`) and nothing is
stored. -/
def cacheAddAll (f : String → Option Response) : List String → Store → Option Store
  | [], st => some st
  | u :: rest, st =>
    match f u with
    | some r =>
      if r.ok = true then Option.map (fun st2 => Store.put st2 u r) (cacheAddAll f rest st)
      else none
    | none => none

/-- Route classes of the SW1/SW3 fetch listeners (identical branch shape). -/
inductive Route where
  | pass
  | crossOriginNet
  | navigation
  | staticSWR
  | defaultNF
deriving DecidableEq

namespace SW1

def CACHE_NAME : String := "financeai-v3"

def CORE_ASSETS : List String :=
  [("/"), ("/static/manifest.json"), ("/static/icons/icon-192.png"),
   ("/static/icons/icon-512.png"), ("/static/vendor/chart.umd.min.js"),
   ("/static/sw.js")]

def install (f : String → Option Response) (st : Store) : Option Store :=
  cacheAddAll f CORE_ASSETS st

def activateDeletes (keys : List String) : List String :=
  keys.filter (fun k => decide (k ≠ CACHE_NAME))

def activateRemaining (keys : List String) : List String :=
  keys.filter (fun k => ! decide (k ∈ activateDeletes keys))

def dispatch (selfOrigin : String) (req : Request) : Route :=
  if req.method ≠ "GET" then .pass
  else if req.url.origin ≠ selfOrigin then .crossOriginNet
  else if req.mode = "navigate" ∨ req.url.pathname = "/" then .navigation
  else if strStartsWith req.url.pathname ("/static/") = true then .staticSWR
  else .defaultNF

/-- Cross-origin branch: `fetch(req).catch(() => caches.match(req))`.
Returns (result, store reads, store writes). -/
def crossOriginHandler (key : String) (fetchRes : Option Response) (st : Store) :
    StratResult × Nat × Nat :=
  match fetchRes with
  | some r => (.resp r, 0, 0)
  | none =>
    match Store.find st key with
    | some c => (.resp c, 1, 0)
    | none => (.nullResp, 1, 0)

def networkFirstHtml (path : String) (fetchRes : Option Response) (st : Store) :
    StratResult × Store :=
  match fetchRes with
  | some fresh => (.resp fresh, Store.put st path fresh)
  | none =>
    match Store.find st path with
    | some c => (.resp c, st)
    | none =>
      match Store.find st ("/") with
      | some fb => (.resp fb, st)
      | none => (.resp ⟨503, ("Offline")⟩, st)

def networkFirst (path : String) (fetchRes : Option Response) (st : Store) :
    StratResult × Store :=
  match fetchRes with
  | some fresh => (.resp fresh, Store.put st path fresh)
  | none =>
    match Store.find st path with
    | some c => (.resp c, st)
    | none => (.resp ⟨504, ("")⟩, st)

def staleWhileRevalidate (path : String) (fetchRes : Option Response) (st : Store) :
    StratResult × Store :=
  let st2 :=
    match fetchRes with
    | some fresh => Store.put st path fresh
    | none => st
  match Store.find st path with
  | some c => (.resp c, st2)
  | none =>
    match fetchRes with
    | some fresh => (.resp fresh, st2)
    | none => (.resp ⟨504, ("")⟩, st2)

end SW1

namespace SW2

def VERSION : String := "fa-v1.0.0"
def STATIC_CACHE : String := "fa-static-" ++ VERSION
def HTML_CACHE : String := "fa-html-" ++ VERSION
def OFFLINE_FALLBACK_URL : String := "/"

def isNavigationRequest (req : Request) : Bool :=
  decide (req.mode = "navigate") ||
    (decide (req.method = "GET") && acceptIncludesHtml req.accept)

def isStaticAsset (u : Url) : Bool :=
  strStartsWith u.pathname ("/static/") ||
  strEndsWith u.pathname (".js") ||
  strEndsWith u.pathname (".css") ||
  strEndsWith u.pathname (".png") ||
  strEndsWith u.pathname (".jpg") ||
  strEndsWith u.pathname (".jpeg") ||
  strEndsWith u.pathname (".webp") ||
  strEndsWith u.pathname (".svg") ||
  strEndsWith u.pathname (".ico")

inductive Route2 where
  | navigation
  | staticAsset
  | passThrough
deriving DecidableEq

def dispatch (selfOrigin : String) (req : Request) : Route2 :=
  if req.url.origin ≠ selfOrigin then .passThrough
  else if isNavigationRequest req = true then .navigation
  else if isStaticAsset req.url = true then .staticAsset
  else .passThrough

/-- Returns (result, new HTML_CACHE store); STATIC_CACHE is read-only here. -/
def networkFirst (path : String) (fetchRes : Option Response)
    (htmlStore staticStore : Store) : StratResult × Store :=
  match fetchRes with
  | some response =>
    let h1 := if response.ok = true then Store.put htmlStore path response else htmlStore
    let h2 :=
      if response.ok = true ∧ path = "/" then Store.put h1 OFFLINE_FALLBACK_URL response
      else h1
    (.resp response, h2)
  | none =>
    match Store.find htmlStore path with
    | some c => (.resp c, htmlStore)
    | none =>
      match Store.find htmlStore OFFLINE_FALLBACK_URL with
      | some h => (.resp h, htmlStore)
      | none =>
        match Store.find staticStore OFFLINE_FALLBACK_URL with
        | some s0 => (.resp s0, htmlStore)
        | none => (.resp ⟨503, ("Offline")⟩, htmlStore)

def staleWhileRevalidate (path : String) (fetchRes : Option Response) (st : Store) :
    StratResult × Store :=
  let st2 :=
    match fetchRes with
    | some r => if r.ok = true then Store.put st path r else st
    | none => st
  match Store.find st path with
  | some c => (.resp c, st2)
  | none =>
    match fetchRes with
    | some r => (.resp r, st2)
    | none => (.resp ⟨504, ("")⟩, st2)

end SW2

namespace SW3

def CACHE_NAME : String := "financeai-v2"

def dispatch (selfOrigin : String) (req : Request) : Route :=
  if req.method ≠ "GET" then .pass
  else if req.url.origin ≠ selfOrigin then .crossOriginNet
  else if req.url.pathname = "/" ∨ req.mode = "navigate" then .navigation
  else if strStartsWith req.url.pathname ("/static/") = true then .staticSWR
  else .defaultNF

def networkFirst (req : Request) (fetchRes : Option Response) (st : Store) :
    StratResult × Store :=
  match fetchRes with
  | some fresh => (.resp fresh, Store.put st req.url.pathname fresh)
  | none =>
    match Store.find st req.url.pathname with
    | some c => (.resp c, st)
    | none =>
      if req.mode = "navigate" then
        match Store.find st ("/") with
        | some fb => (.resp fb, st)
        | none => (.thrown, st)
      else (.thrown, st)

def staleWhileRevalidate (path : String) (fetchRes : Option Response) (st : Store) :
    StratResult × Store :=
  let st2 :=
    match fetchRes with
    | some fresh => Store.put st path fresh
    | none => st
  match Store.find st path with
  | some c => (.resp c, st2)
  | none =>
    match fetchRes with
    | some fresh => (.resp fresh, st2)
    | none => (.resp ⟨504, ("")⟩, st2)

end SW3

namespace P0

def VERSION : String := "v2.0.1"
def STATIC_CACHE : String := "static-" ++ VERSION
def RUNTIME_CACHE : String := "runtime-" ++ VERSION

def PRECACHE : List String :=
  [("/"), ("/static/manifest.json"), ("/static/vendor/chart.umd.min.js"),
   ("/static/icons/icon-192.png"), ("/static/icons/icon-512.png"),
   ("/static/icons/maskable-192.png"), ("/static/icons/maskable-512.png")]

/-- Install: each member fetched under its own try/catch; only ok responses
are stored; every failure is swallowed, so the sequence always completes. -/
def installPrecache (f : String → Option Response) : List String → Store → Store
  | [], st => st
  | u :: rest, st =>
    installPrecache f rest
      (match f u with
       | some r => if r.ok = true then Store.put st u r else st
       | none => st)

def activateDeletes (keys : List String) : List String :=
  keys.filter (fun k => ! decide (k ∈ [STATIC_CACHE, RUNTIME_CACHE]))

def activateRemaining (keys : List String) : List String :=
  keys.filter (fun k => ! decide (k ∈ activateDeletes keys))

inductive RouteP0 where
  | pass
  | navigation
  | iconCF
  | staticSWR
deriving DecidableEq

def dispatch (selfOrigin : String) (req : Request) : RouteP0 :=
  if req.method ≠ "GET" then .pass
  else if req.url.origin ≠ selfOrigin then .pass
  else if req.mode = "navigate" then .navigation
  else if strStartsWith req.url.pathname ("/static/icons/") = true then .iconCF
  else if strStartsWith req.url.pathname ("/static/") = true then .staticSWR
  else .pass

/-- Returns (result, new store, number of origin fetches issued). -/
def cacheFirst (path : String) (fetchRes : Option Response) (st : Store) :
    StratResult × Store × Nat :=
  match Store.find st path with
  | some c => (.resp c, st, 0)
  | none =>
    match fetchRes with
    | some fresh =>
      (.resp fresh, if fresh.ok = true then Store.put st path fresh else st, 1)
    | none => (.thrown, st, 1)

/-- Source line: `return cached || fetchPromise || new Response("", {status: 504});`
The `await` on `fetchPromise` is missing: the promise object is truthy, so the
504 arm is unreachable and on a miss the handler resolves with the fetch
outcome — `null` included when the fetch rejected. -/
def staleWhileRevalidate (path : String) (fetchRes : Option Response) (st : Store) :
    StratResult × Store :=
  let st2 :=
    match fetchRes with
    | some r => if r.ok = true then Store.put st path r else st
    | none => st
  match Store.find st path with
  | some c => (.resp c, st2)
  | none =>
    match fetchRes with
    | some r => (.resp r, st2)
    | none => (.nullResp, st2)

/-- Global `caches.match`: searches the caches in creation order (the
precache STATIC store exists before the RUNTIME store). -/
def cachesMatchEither (staticStore runtimeStore : Store) (k : String) : Option Response :=
  match Store.find staticStore k with
  | some r => some r
  | none => Store.find runtimeStore k

/-- Source fallback: `(await caches.match("/")) || (await caches.match(request))`
— the root entry is consulted before the exact match. Returns
(result, new RUNTIME store). -/
def networkFirst (path : String) (fetchRes : Option Response)
    (staticStore runtimeStore : Store) : StratResult × Store :=
  match fetchRes with
  | some fresh =>
    (.resp fresh, if fresh.ok = true then Store.put runtimeStore path fresh else runtimeStore)
  | none =>
    match cachesMatchEither staticStore runtimeStore ("/") with
    | some root => (.resp root, runtimeStore)
    | none =>
      match cachesMatchEither staticStore runtimeStore path with
      | some c => (.resp c, runtimeStore)
      | none => (.resp ⟨503, ("Offline")⟩, runtimeStore)

end P0

namespace P1

def VERSION : String := "v1.0.0"
def STATIC_CACHE : String := "static-" ++ VERSION
def RUNTIME_CACHE : String := "runtime-" ++ VERSION

def cacheFirst (path : String) (fetchRes : Option Response) (st : Store) :
    StratResult × Store × Nat :=
  match Store.find st path with
  | some c => (.resp c, st, 0)
  | none =>
    match fetchRes with
    | some fresh =>
      (.resp fresh, if fresh.ok = true then Store.put st path fresh else st, 1)
    | none => (.thrown, st, 1)

def staleWhileRevalidate (path : String) (fetchRes : Option Response) (st : Store) :
    StratResult × Store :=
  let st2 :=
    match fetchRes with
    | some r => if r.ok = true then Store.put st path r else st
    | none => st
  match Store.find st path with
  | some c => (.resp c, st2)
  | none =>
    match fetchRes with
    | some r => (.resp r, st2)
    | none => (.resp ⟨504, ("")⟩, st2)

def networkFirst (path : String) (fetchRes : Option Response) (st : Store) :
    StratResult × Store :=
  match fetchRes with
  | some fresh =>
    (.resp fresh, if fresh.ok = true then Store.put st path fresh else st)
  | none =>
    match Store.find st path with
    | some c => (.resp c, st)
    | none => (.resp ⟨503, ("Offline")⟩, st)

end P1

namespace P2

def VERSION : String := "v1.0.0"
def CACHE_NAME : String := "finance-ai-" ++ VERSION

def CORE_ASSETS : List String :=
  [("/"), ("/offline.html"), ("/static/manifest.json"),
   ("/static/vendor/chart.umd.min.js"), ("/static/icons/icon-192.png"),
   ("/static/icons/icon-512.png")]

def isApiRequest (pathname : String) : Bool :=
  strStartsWith pathname ("/login") ||
  strStartsWith pathname ("/logout") ||
  strStartsWith pathname ("/me") ||
  strStartsWith pathname ("/lancar") ||
  strStartsWith pathname ("/ultimos") ||
  strStartsWith pathname ("/resumo") ||
  strStartsWith pathname ("/dashboard") ||
  strStartsWith pathname ("/metas") ||
  strStartsWith pathname ("/lancamento/") ||
  strStartsWith pathname ("/export.")

inductive RouteP2 where
  | passCrossOrigin
  | passApi
  | navigation
  | asset
deriving DecidableEq

def dispatch (selfOrigin : String) (req : Request) : RouteP2 :=
  if req.url.origin ≠ selfOrigin then .passCrossOrigin
  else if isApiRequest req.url.pathname = true then .passApi
  else if req.mode = "navigate" then .navigation
  else .asset

/-- Navigation branch: unconditional `cache.put`, then on failure
`(await cache.match(req)) || (await cache.match('/offline.html'))`,
which resolves `undefined` when neither entry exists. -/
def navigationHandler (path : String) (fetchRes : Option Response) (st : Store) :
    StratResult × Store :=
  match fetchRes with
  | some fresh => (.resp fresh, Store.put st path fresh)
  | none =>
    match Store.find st path with
    | some c => (.resp c, st)
    | none =>
      match Store.find st ("/offline.html") with
      | some off => (.resp off, st)
      | none => (.nullResp, st)

/-- Asset branch: cache-first; stores only GET + ok responses; on fetch
failure returns the offline page for HTML acceptors, else `Response.error()`
(modelled as status 0). -/
def assetHandler (req : Request) (fetchRes : Option Response) (st : Store) :
    StratResult × Store :=
  match Store.find st req.url.pathname with
  | some c => (.resp c, st)
  | none =>
    match fetchRes with
    | some fresh =>
      (.resp fresh,
        if req.method = "GET" ∧ fresh.ok = true then Store.put st req.url.pathname fresh
        else st)
    | none =>
      if acceptIncludesHtml req.accept = true then
        match Store.find st ("/offline.html") with
        | some off => (.resp off, st)
        | none => (.resp ⟨0, ("")⟩, st)
      else (.resp ⟨0, ("")⟩, st)

/-- Whole fetch listener; `none` means the request is not intercepted
(no `respondWith`, hence no store operation at all). -/
def handleFetch (selfOrigin : String) (req : Request) (fetchRes : Option Response)
    (st : Store) : Option (StratResult × Store) :=
  match dispatch selfOrigin req with
  | .passCrossOrigin => none
  | .passApi => none
  | .navigation => some (navigationHandler req.url.pathname fetchRes st)
  | .asset => some (assetHandler req fetchRes st)

end P2

/-! Concrete responses and fetch functions used by closed theorems. -/

def okResp : Response := ⟨200, ("ok")⟩

/-- A fetch environment in which exactly one core-set member is unavailable. -/
def fetchFailingIcon : String → Option Response :=
  fun u => if u = "/static/icons/icon-512.png" then none else some okResp

/-! ## Store lemmas -/

theorem Store.find_put_self (st : Store) (k : String) (v : Response) :
    Store.find (Store.put st k v) k = some v := by
  simp [Store.put, Store.find]

theorem Store.find_put_of_ne (st : Store) (k k2 : String) (v : Response) (h : k ≠ k2) :
    Store.find (Store.put st k v) k2 = Store.find st k2 := by
  simp [Store.put, Store.find, h]

/-! ## Install (precache) lemmas -/

theorem P0.installPrecache_preserve (f : String → Option Response) (u : String)
    (r : Response) (hf : f u = some r) :
    ∀ (urls : List String) (st : Store), Store.find st u = some r →
      Store.find (P0.installPrecache f urls st) u = some r := by
  intro urls
  induction urls with
  | nil => intro st h; simpa [P0.installPrecache] using h
  | cons v rest ih =>
    intro st h
    simp only [P0.installPrecache]
    apply ih
    by_cases hv : v = u
    · subst hv
      rw [hf]
      by_cases hok : r.ok = true
      · simp [hok, Store.find_put_self]
      · simp [hok, h]
    · cases hfv : f v with
      | none => simpa using h
      | some rv =>
        by_cases hok : rv.ok = true
        · simp only [hok, if_true]
          rw [Store.find_put_of_ne _ _ _ _ hv]
          exact h
        · simpa [hok] using h

theorem P0.installPrecache_stores (f : String → Option Response) (u : String)
    (r : Response) (hf : f u = some r) (hok : r.ok = true) :
    ∀ (urls : List String), u ∈ urls → ∀ (st : Store),
      Store.find (P0.installPrecache f urls st) u = some r := by
  intro urls
  induction urls with
  | nil => intro hu; cases hu
  | cons v rest ih =>
    intro hu st
    simp only [P0.installPrecache]
    rcases List.mem_cons.mp hu with hv | hrest
    · subst hv
      apply P0.installPrecache_preserve f u r hf rest
      simp [hf, hok, Store.find_put_self]
    · exact ih hrest _

/-! ## No-write lemmas: strategies that guard persistence on `response.ok` -/

theorem sw2_networkFirst_no_write (path : String) (f : Option Response)
    (hs ss : Store) (hnok : ∀ r, f = some r → Response.ok r = false) :
    (SW2.networkFirst path f hs ss).2 = hs := by
  cases f with
  | some r =>
    have hr := hnok r rfl
    simp [SW2.networkFirst, hr]
  | none =>
    cases h1 : Store.find hs path <;>
    cases h2 : Store.find hs SW2.OFFLINE_FALLBACK_URL <;>
    cases h3 : Store.find ss SW2.OFFLINE_FALLBACK_URL <;>
    simp [SW2.networkFirst, h1, h2, h3]

theorem sw2_swr_no_write (path : String) (f : Option Response) (st : Store)
    (hnok : ∀ r, f = some r → Response.ok r = false) :
    (SW2.staleWhileRevalidate path f st).2 = st := by
  cases f with
  | some r =>
    have hr := hnok r rfl
    cases h : Store.find st path <;> simp [SW2.staleWhileRevalidate, hr, h]
  | none => cases h : Store.find st path <;> simp [SW2.staleWhileRevalidate, h]

theorem p0_cacheFirst_no_write (path : String) (f : Option Response) (st : Store)
    (hnok : ∀ r, f = some r → Response.ok r = false) :
    (P0.cacheFirst path f st).2.1 = st := by
  cases f with
  | some r =>
    have hr := hnok r rfl
    cases h : Store.find st path <;> simp [P0.cacheFirst, hr, h]
  | none => cases h : Store.find st path <;> simp [P0.cacheFirst, h]

theorem p0_swr_no_write (path : String) (f : Option Response) (st : Store)
    (hnok : ∀ r, f = some r → Response.ok r = false) :
    (P0.staleWhileRevalidate path f st).2 = st := by
  cases f with
  | some r =>
    have hr := hnok r rfl
    cases h : Store.find st path <;> simp [P0.staleWhileRevalidate, hr, h]
  | none => cases h : Store.find st path <;> simp [P0.staleWhileRevalidate, h]

theorem p0_networkFirst_no_write (path : String) (f : Option Response)
    (ss rs : Store) (hnok : ∀ r, f = some r → Response.ok r = false) :
    (P0.networkFirst path f ss rs).2 = rs := by
  cases f with
  | some r =>
    have hr := hnok r rfl
    simp [P0.networkFirst, hr]
  | none =>
    cases h1 : P0.cachesMatchEither ss rs ("/") <;>
    cases h2 : P0.cachesMatchEither ss rs path <;>
    simp [P0.networkFirst, h1, h2]

theorem p1_cacheFirst_no_write (path : String) (f : Option Response) (st : Store)
    (hnok : ∀ r, f = some r → Response.ok r = false) :
    (P1.cacheFirst path f st).2.1 = st := by
  cases f with
  | some r =>
    have hr := hnok r rfl
    cases h : Store.find st path <;> simp [P1.cacheFirst, hr, h]
  | none => cases h : Store.find st path <;> simp [P1.cacheFirst, h]

theorem p1_swr_no_write (path : String) (f : Option Response) (st : Store)
    (hnok : ∀ r, f = some r → Response.ok r = false) :
    (P1.staleWhileRevalidate path f st).2 = st := by
  cases f with
  | some r =>
    have hr := hnok r rfl
    cases h : Store.find st path <;> simp [P1.staleWhileRevalidate, hr, h]
  | none => cases h : Store.find st path <;> simp [P1.staleWhileRevalidate, h]

theorem p1_networkFirst_no_write (path : String) (f : Option Response) (st : Store)
    (hnok : ∀ r, f = some r → Response.ok r = false) :
    (P1.networkFirst path f st).2 = st := by
  cases f with
  | some r =>
    have hr := hnok r rfl
    simp [P1.networkFirst, hr]
  | none => cases h : Store.find st path <;> simp [P1.networkFirst, h]

theorem p2_assetHandler_no_write (req : Request) (f : Option Response) (st : Store)
    (hnok : ∀ r, f = some r → Response.ok r = false) :
    (P2.assetHandler req f st).2 = st := by
  cases f with
  | some r =>
    have hr := hnok r rfl
    cases h : Store.find st req.url.pathname <;> simp [P2.assetHandler, hr, h]
  | none =>
    cases h : Store.find st req.url.pathname <;>
    cases h2 : Store.find st ("/offline.html") <;>
    cases h3 : acceptIncludesHtml req.accept <;>
    simp [P2.assetHandler, h, h2, h3]

theorem sw1_no_write_on_fetch_error (path : String) (st : Store) :
    (SW1.networkFirst path none st).2 = st ∧
    (SW1.networkFirstHtml path none st).2 = st ∧
    (SW1.staleWhileRevalidate path none st).2 = st := by
  refine ⟨?_, ?_, ?_⟩
  · cases h : Store.find st path <;> simp [SW1.networkFirst, h]
  · cases h : Store.find st path <;> cases h2 : Store.find st ("/") <;>
      simp [SW1.networkFirstHtml, h, h2]
  · cases h : Store.find st path <;> simp [SW1.staleWhileRevalidate, h]

theorem sw3_no_write_on_fetch_error (req : Request) (st : Store) :
    (SW3.networkFirst req none st).2 = st := by
  cases h : Store.find st req.url.pathname <;>
  cases h2 : Store.find st ("/") <;>
  cases h3 : decide (req.mode = "navigate") <;>
  simp_all [SW3.networkFirst]

theorem p2_navigationHandler_no_write_on_fetch_error (path : String) (st : Store) :
    (P2.navigationHandler path none st).2 = st := by
  cases h : Store.find st path <;>
  cases h2 : Store.find st ("/offline.html") <;>
  simp [P2.navigationHandler, h, h2]

/-! ## Claim theorems -/

/-- C1 (counterexample): the SW1 cross-origin branch is not store-free — when
the network fetch fails it falls back to `caches.match`, performing one store
read (and serving the cached cross-origin entry), so the store call count is
not zero. -/
theorem sw1_crossOrigin_fallback_reads_store :
    (SW1.crossOriginHandler ("https://cdn.example/lib.js") none
      [(("https://cdn.example/lib.js"), ⟨200, ("lib")⟩)]).2.1 = 1 ∧
    (SW1.crossOriginHandler ("https://cdn.example/lib.js") none
      [(("https://cdn.example/lib.js"), ⟨200, ("lib")⟩)]).1
      = .resp ⟨200, ("lib")⟩ := by decide

/-- C1 (amended): same-origin requests matching the API prefix set (part_002)
are never intercepted, so no store call occurs; SW1 cross-origin requests are
never written to a store, and no store read occurs while the network fetch
succeeds — the single store read happens only as a fallback on fetch
failure. -/
theorem api_passthrough_and_crossOrigin_no_writes :
    (∀ (o : String) (req : Request) (f : Option Response) (st : Store),
      req.url.origin = o → P2.isApiRequest req.url.pathname = true →
      P2.handleFetch o req f st = none) ∧
    (∀ (key : String) (f : Option Response) (st : Store),
      (SW1.crossOriginHandler key f st).2.2 = 0 ∧
      (∀ r, f = some r → (SW1.crossOriginHandler key f st).2.1 = 0)) := by
  constructor
  · intro o req f st ho hapi
    simp [P2.handleFetch, P2.dispatch, ho, hapi]
  · intro key f st
    constructor
    · cases f with
      | some r => rfl
      | none => cases h : Store.find st key <;> simp [SW1.crossOriginHandler, h]
    · intro r hr
      subst hr
      rfl

/-- C1 (witness): a GET for `/resumo` on the app origin is API-classified and
passed through without interception. -/
theorem api_passthrough_and_crossOrigin_no_writes_witness :
    P2.handleFetch ("https://app.example")
      ⟨"GET", ⟨("https://app.example"), ("/resumo")⟩, ("cors"), none⟩ none [] = none :=
  api_passthrough_and_crossOrigin_no_writes.1 ("https://app.example")
    ⟨"GET", ⟨("https://app.example"), ("/resumo")⟩, ("cors"), none⟩ none [] rfl (by decide)

/-- C2 (counterexample): SW1's `networkFirst` calls `cache.put` without an
`ok` guard, so a 404 origin response is persisted into the store. -/
theorem sw1_networkFirst_persists_404 :
    Store.find (SW1.networkFirst ("/x") (some ⟨404, ("nf")⟩) []).2 ("/x")
      = some ⟨404, ("nf")⟩ ∧
    Response.ok ⟨404, ("nf")⟩ = false := by decide

/-- C2 (amended): the strategies that guard on `response.ok` (SW2's
networkFirst and staleWhileRevalidate, all part_000 and part_001 strategies,
and part_002's asset handler) leave the store unchanged whenever the origin
outcome is not a 2xx response, and no strategy in any variant persists a
rejected fetch; SW1/SW3's networkFirst and staleWhileRevalidate (and
part_002's navigation handler) persist any fulfilled response regardless of
status. -/
theorem ok_guarded_strategies_persist_only_success :
    (∀ (path : String) (f : Option Response) (hs ss : Store),
      (∀ r, f = some r → Response.ok r = false) → (SW2.networkFirst path f hs ss).2 = hs) ∧
    (∀ (path : String) (f : Option Response) (st : Store),
      (∀ r, f = some r → Response.ok r = false) → (SW2.staleWhileRevalidate path f st).2 = st) ∧
    (∀ (path : String) (f : Option Response) (st : Store),
      (∀ r, f = some r → Response.ok r = false) → (P0.cacheFirst path f st).2.1 = st) ∧
    (∀ (path : String) (f : Option Response) (st : Store),
      (∀ r, f = some r → Response.ok r = false) → (P0.staleWhileRevalidate path f st).2 = st) ∧
    (∀ (path : String) (f : Option Response) (ss rs : Store),
      (∀ r, f = some r → Response.ok r = false) → (P0.networkFirst path f ss rs).2 = rs) ∧
    (∀ (path : String) (f : Option Response) (st : Store),
      (∀ r, f = some r → Response.ok r = false) → (P1.cacheFirst path f st).2.1 = st) ∧
    (∀ (path : String) (f : Option Response) (st : Store),
      (∀ r, f = some r → Response.ok r = false) → (P1.staleWhileRevalidate path f st).2 = st) ∧
    (∀ (path : String) (f : Option Response) (st : Store),
      (∀ r, f = some r → Response.ok r = false) → (P1.networkFirst path f st).2 = st) ∧
    (∀ (req : Request) (f : Option Response) (st : Store),
      (∀ r, f = some r → Response.ok r = false) → (P2.assetHandler req f st).2 = st) ∧
    (∀ (path : String) (st : Store),
      (SW1.networkFirst path none st).2 = st ∧
      (SW1.networkFirstHtml path none st).2 = st ∧
      (SW1.staleWhileRevalidate path none st).2 = st) ∧
    (∀ (req : Request) (st : Store), (SW3.networkFirst req none st).2 = st) ∧
    (∀ (path : String) (st : Store), (P2.navigationHandler path none st).2 = st) :=
  ⟨sw2_networkFirst_no_write, sw2_swr_no_write, p0_cacheFirst_no_write,
   p0_swr_no_write, p0_networkFirst_no_write, p1_cacheFirst_no_write,
   p1_swr_no_write, p1_networkFirst_no_write, p2_assetHandler_no_write,
   sw1_no_write_on_fetch_error, sw3_no_write_on_fetch_error,
   p2_navigationHandler_no_write_on_fetch_error⟩

/-- C2 (witness): a 500 origin response is not persisted by SW2's
networkFirst. -/
theorem ok_guarded_strategies_persist_only_success_witness :
    (SW2.networkFirst ("/p") (some ⟨500, ("err")⟩) [] []).2 = [] :=
  ok_guarded_strategies_persist_only_success.1 ("/p") (some ⟨500, ("err")⟩) [] []
    (by intro r hr; cases hr; decide)

/-- C3 (counterexample): part_000's `networkFirst` fallback consults the root
entry before the exact match: with both `/` and `/page` stored, an origin
failure on `/page` returns the root snapshot, not the exact-match snapshot the
claim demands. -/
theorem p0_networkFirst_prefers_root_over_exact :
    (P0.networkFirst ("/page") none
      [(("/"), ⟨200, ("home")⟩), (("/page"), ⟨200, ("page")⟩)] []).1
      = .resp ⟨200, ("home")⟩ ∧
    Store.find [(("/"), ⟨200, ("home")⟩), (("/page"), ⟨200, ("page")⟩)] ("/page")
      = some ⟨200, ("page")⟩ ∧
    (⟨200, ("home")⟩ : Response) ≠ ⟨200, ("page")⟩ := by decide

/-- C3 (amended): on origin failure part_000's `networkFirst` returns, in this
order, the root-resource store entry, else the exact-match entry, else the
synthesized non-empty 503 offline response, and never throws; the other cited
origin-first variant (SW3) instead rethrows the origin error when no entry
matches and the request is not a navigation. -/
theorem p0_networkFirst_fallback_chain :
    (∀ (path : String) (ss rs : Store),
      (P0.networkFirst path none ss rs).1 ≠ StratResult.thrown) ∧
    (∀ (path : String) (ss rs : Store) (root : Response),
      P0.cachesMatchEither ss rs ("/") = some root →
      (P0.networkFirst path none ss rs).1 = .resp root) ∧
    (∀ (path : String) (ss rs : Store) (c : Response),
      P0.cachesMatchEither ss rs ("/") = none →
      P0.cachesMatchEither ss rs path = some c →
      (P0.networkFirst path none ss rs).1 = .resp c) ∧
    (∀ (path : String) (ss rs : Store),
      P0.cachesMatchEither ss rs ("/") = none →
      P0.cachesMatchEither ss rs path = none →
      (P0.networkFirst path none ss rs).1 = .resp ⟨503, ("Offline")⟩ ∧
      (⟨503, ("Offline")⟩ : Response).body ≠ "") ∧
    (∀ (req : Request) (st : Store),
      Store.find st req.url.pathname = none → req.mode ≠ "navigate" →
      (SW3.networkFirst req none st).1 = StratResult.thrown) := by
  refine ⟨?_, ?_, ?_, ?_, ?_⟩
  · intro path ss rs
    cases h1 : P0.cachesMatchEither ss rs ("/") <;>
    cases h2 : P0.cachesMatchEither ss rs path <;>
    simp [P0.networkFirst, h1, h2]
  · intro path ss rs root h1
    simp [P0.networkFirst, h1]
  · intro path ss rs c h1 h2
    simp [P0.networkFirst, h1, h2]
  · intro path ss rs h1 h2
    refine ⟨?_, by decide⟩
    simp [P0.networkFirst, h1, h2]
  · intro req st h1 h2
    simp [SW3.networkFirst, h1, h2]

/-- C3 (witness): with an empty store, part_000's origin-first fallback
synthesizes the non-empty 503 offline response. -/
theorem p0_networkFirst_fallback_chain_witness :
    (P0.networkFirst ("/page") none [] []).1 = .resp ⟨503, ("Offline")⟩ ∧
    (⟨503, ("Offline")⟩ : Response).body ≠ "" :=
  p0_networkFirst_fallback_chain.2.2.2.1 ("/page") [] [] rfl rfl

/-- C4 (counterexample): SW1's install precaches with the atomic
`cache.addAll`: with every core-set member available except
`/static/icons/icon-512.png`, the whole install rejects and nothing is stored,
although e.g. `/` fetched successfully. -/
theorem sw1_install_rejects_on_single_member_failure :
    SW1.install fetchFailingIcon [] = none ∧
    fetchFailingIcon ("/") = some okResp ∧
    Response.ok okResp = true := by decide

/-- C4 (amended): in part_000's install each core-set member is fetched and
stored under its own try/catch, so every member whose fetch succeeds with a
2xx response ends up stored no matter which other members fail, and the
sequence always completes; the `addAll`-based installs (sw.js variants,
part_001, part_002) reject wholesale on a single member failure. -/
theorem p0_precache_members_independent :
    ∀ (f : String → Option Response) (urls : List String) (st : Store)
      (u : String) (r : Response),
      u ∈ urls → f u = some r → Response.ok r = true →
      Store.find (P0.installPrecache f urls st) u = some r := by
  intro f urls st u r hu hf hok
  exact P0.installPrecache_stores f u r hf hok urls hu st

/-- C4 (witness): under the same one-member-failing fetch environment, the
root member is still stored by part_000's install. -/
theorem p0_precache_members_independent_witness :
    Store.find (P0.installPrecache fetchFailingIcon P0.PRECACHE []) ("/") = some okResp :=
  p0_precache_members_independent fetchFailingIcon P0.PRECACHE [] ("/") okResp
    (by decide) (by decide) (by decide)

/-- C5: the store-first (cacheFirst) strategies of part_001 and part_000
return a present snapshot unchanged without issuing any origin fetch, and on a
miss issue exactly one fetch, return the origin response, and write it back
exactly when it is 2xx. -/
theorem cacheFirst_hit_and_miss_behavior :
    (∀ (path : String) (f : Option Response) (st : Store) (c : Response),
      Store.find st path = some c →
      P1.cacheFirst path f st = (.resp c, st, 0) ∧
      P0.cacheFirst path f st = (.resp c, st, 0)) ∧
    (∀ (path : String) (st : Store) (r : Response),
      Store.find st path = none →
      P1.cacheFirst path (some r) st
        = (.resp r, if Response.ok r = true then Store.put st path r else st, 1) ∧
      P0.cacheFirst path (some r) st
        = (.resp r, if Response.ok r = true then Store.put st path r else st, 1)) := by
  constructor
  · intro path f st c h
    exact ⟨by simp [P1.cacheFirst, h], by simp [P0.cacheFirst, h]⟩
  · intro path st r h
    exact ⟨by simp [P1.cacheFirst, h], by simp [P0.cacheFirst, h]⟩

/-- C5 (witness): a stored icon is served with zero origin fetches even when
the origin would answer differently. -/
theorem cacheFirst_hit_and_miss_behavior_witness :
    P1.cacheFirst ("/static/icons/icon-192.png") (some ⟨200, ("new")⟩)
      [(("/static/icons/icon-192.png"), ⟨200, ("icon")⟩)]
      = (.resp ⟨200, ("icon")⟩, [(("/static/icons/icon-192.png"), ⟨200, ("icon")⟩)], 0) :=
  (cacheFirst_hit_and_miss_behavior.1 ("/static/icons/icon-192.png")
    (some ⟨200, ("new")⟩) [(("/static/icons/icon-192.png"), ⟨200, ("icon")⟩)]
    ⟨200, ("icon")⟩ (by decide)).1

/-- C6: part_000's staleWhileRevalidate omits the `await` on `fetchPromise`,
so on a store miss with a failing origin fetch the handler resolves with
`null` — the written 504 fallback is unreachable — while the sibling variants
(SW1, part_001) return the terminal 504 response there, as the claim states. -/
theorem p0_swr_missing_await_yields_null :
    (P0.staleWhileRevalidate ("/static/app.css") none []).1 = StratResult.nullResp ∧
    (SW1.staleWhileRevalidate ("/static/app.css") none []).1 = .resp ⟨504, ("")⟩ ∧
    (P1.staleWhileRevalidate ("/static/app.css") none []).1 = .resp ⟨504, ("")⟩ := by decide

/-- C7: activation cleanup keeps exactly the pre-existing stores named for the
current generation — SW1 keeps exactly `CACHE_NAME`, part_000 keeps exactly
`STATIC_CACHE` and `RUNTIME_CACHE` — and every other store is deleted. -/
theorem activate_cleanup_keeps_exactly_current_generation :
    ∀ (keys : List String) (k : String),
      (k ∈ SW1.activateRemaining keys ↔ k ∈ keys ∧ k = SW1.CACHE_NAME) ∧
      (k ∈ P0.activateRemaining keys ↔
        k ∈ keys ∧ (k = P0.STATIC_CACHE ∨ k = P0.RUNTIME_CACHE)) := by
  intro keys k
  constructor
  · simp only [SW1.activateRemaining, SW1.activateDeletes, List.mem_filter,
      Bool.not_eq_true', decide_eq_false_iff_not, decide_eq_true_eq,
      List.mem_cons, List.not_mem_nil, or_false]
    tauto
  · simp only [P0.activateRemaining, P0.activateDeletes, List.mem_filter,
      Bool.not_eq_true', decide_eq_false_iff_not, decide_eq_true_eq,
      List.mem_cons, List.not_mem_nil, or_false]
    tauto

/-- C8 (counterexample): part_002 tests the API prefix set before navigation
intent — a same-origin navigation to `/dashboard` with an HTML Accept header
is classified api/passthrough, not navigation. -/
theorem p2_navigate_to_api_path_classified_api :
    P2.dispatch ("https://app.example")
      ⟨"GET", ⟨("https://app.example"), ("/dashboard")⟩, ("navigate"), some ("text/html")⟩
      = .passApi ∧
    P2.dispatch ("https://app.example")
      ⟨"GET", ⟨("https://app.example"), ("/dashboard")⟩, ("navigate"), some ("text/html")⟩
      ≠ .navigation := by decide

/-- C8 (amended): in part_002 the no-cache/API prefix rule takes precedence —
every same-origin request whose path matches the prefix set is passed through
as api regardless of navigation intent; in sw.js variant 2 (which has no API
rule) every same-origin request with navigation intent classifies as
navigation. -/
theorem p2_api_precedes_navigation :
    (∀ (o : String) (req : Request), req.url.origin = o →
      P2.isApiRequest req.url.pathname = true → P2.dispatch o req = .passApi) ∧
    (∀ (o : String) (req : Request), req.url.origin = o →
      SW2.isNavigationRequest req = true → SW2.dispatch o req = .navigation) := by
  constructor
  · intro o req ho hapi
    simp [P2.dispatch, ho, hapi]
  · intro o req ho hnav
    simp [SW2.dispatch, ho, hnav]

/-- C8 (witness): the navigation request to `/dashboard` is dispatched to the
api passthrough by part_002. -/
theorem p2_api_precedes_navigation_witness :
    P2.dispatch ("https://app.example")
      ⟨"GET", ⟨("https://app.example"), ("/dashboard")⟩, ("navigate"), some ("text/html")⟩
      = .passApi :=
  p2_api_precedes_navigation.1 ("https://app.example")
    ⟨"GET", ⟨("https://app.example"), ("/dashboard")⟩, ("navigate"), some ("text/html")⟩
    rfl (by decide)

/-- C9 (counterexample): in sw.js variant 2, a same-origin GET that is neither
navigation nor a static asset (`/data` accepting JSON) is left unintercepted
(no `respondWith`), not handled by the origin-first strategy. -/
theorem sw2_default_request_unintercepted :
    SW2.dispatch ("https://app.example")
      ⟨"GET", ⟨("https://app.example"), ("/data")⟩, ("cors"), some ("application/json")⟩
      = .passThrough := by decide

/-- C9 (amended): in sw.js variants 1 and 3 every same-origin GET matching no
earlier rule is dispatched to the origin-first networkFirst handler; variant 2
instead leaves such requests unintercepted. -/
theorem sw1_sw3_default_requests_network_first :
    ∀ (o : String) (req : Request),
      req.method = "GET" → req.url.origin = o → req.mode ≠ "navigate" →
      req.url.pathname ≠ "/" → strStartsWith req.url.pathname ("/static/") = false →
      SW1.dispatch o req = .defaultNF ∧ SW3.dispatch o req = .defaultNF := by
  intro o req hm ho hn hp hs
  constructor
  · simp [SW1.dispatch, hm, ho, hn, hp, hs]
  · simp [SW3.dispatch, hm, ho, hn, hp, hs]

/-- C9 (witness): the `/data` JSON request dispatches to networkFirst in
variants 1 and 3. -/
theorem sw1_sw3_default_requests_network_first_witness :
    SW1.dispatch ("https://app.example")
      ⟨"GET", ⟨("https://app.example"), ("/data")⟩, ("cors"), some ("application/json")⟩
      = .defaultNF ∧
    SW3.dispatch ("https://app.example")
      ⟨"GET", ⟨("https://app.example"), ("/data")⟩, ("cors"), some ("application/json")⟩
      = .defaultNF :=
  sw1_sw3_default_requests_network_first ("https://app.example")
    ⟨"GET", ⟨("https://app.example"), ("/data")⟩, ("cors"), some ("application/json")⟩
    rfl rfl (by decide) (by decide) (by decide)

/-- C10: in sw.js variants 1 and 3 any same-origin GET whose path is exactly
`/` dispatches to the navigation (origin-first) strategy, whatever its mode
or Accept header. -/
theorem root_path_always_navigation :
    ∀ (o : String) (req : Request),
      req.method = "GET" → req.url.origin = o → req.url.pathname = "/" →
      SW1.dispatch o req = .navigation ∧ SW3.dispatch o req = .navigation := by
  intro o req hm ho hp
  constructor
  · simp [SW1.dispatch, hm, ho, hp]
  · simp [SW3.dispatch, hm, ho, hp]

/-- C10 (witness): a non-navigate, image-accepting GET for `/` still routes
to the navigation strategy. -/
theorem root_path_always_navigation_witness :
    SW1.dispatch ("https://app.example")
      ⟨"GET", ⟨("https://app.example"), ("/")⟩, ("no-cors"), some ("image/png")⟩
      = .navigation ∧
    SW3.dispatch ("https://app.example")
      ⟨"GET", ⟨("https://app.example"), ("/")⟩, ("no-cors"), some ("image/png")⟩
      = .navigation :=
  root_path_always_navigation ("https://app.example")
    ⟨"GET", ⟨("https://app.example"), ("/")⟩, ("no-cors"), some ("image/png")⟩
    rfl rfl rfl
